import Mathlib

/-!
Shallow embedding of the `suspect` DAG analysis engine:
`suspect/dag/visitor.py` (dispatch engine, forward/backward visitors) and
`suspect/summary.py` (bound fixed-point loop, summary assembler,
`ModelInformation`).  Python dictionaries are embedded as insertion-ordered
association lists; machinery imported from modules outside this repository
(bound propagation, polynomial degree, convexity propagation) is kept
abstract as function parameters, and its data types are modelled from the
specification.
-/

namespace Suspect

/-- A Python class, identified by a numeric tag. -/
abbrev TypeId := Nat

/-- A Python object as the dispatcher sees it: its identity, its exact
class `ty` and the list of its proper superclasses. -/
structure PyObj where
  oid : Nat
  ty : TypeId
  supers : List TypeId
deriving DecidableEq

/-- `isinstance(e, t)`: `t` is the exact class of `e` or one of its
superclasses. -/
def isinstance (e : PyObj) (t : TypeId) : Bool :=
  e.ty = t || e.supers.contains t

/-- `m.get(k)` on an insertion-ordered Python dict embedded as an
association list. -/
def dictGet {κ α : Type} [DecidableEq κ] : List (κ × α) → κ → Option α
  | [], _ => none
  | (k', v) :: rest, k => if k' = k then some v else dictGet rest k

/-- `m[k] = v` on a Python dict: replace in place if the key is present,
append otherwise. -/
def dictSet {κ α : Type} [DecidableEq κ] : List (κ × α) → κ → α → List (κ × α)
  | [], k, v => [(k, v)]
  | (k', v') :: rest, k, v =>
    if k' = k then (k, v) :: rest else (k', v') :: dictSet rest k v

/-- `k in m` on a Python dict. -/
def dictContains {κ α : Type} [DecidableEq κ] (m : List (κ × α)) (k : κ) : Bool :=
  (dictGet m k).isSome

/-- The superclass fallback scan of `Dispatcher.dispatch` and
`Visitor.visit`: iterate the handler map in insertion order and return the
first handler whose registered type the expression is an instance of. -/
def findIsinstanceHandler {H : Type} : List (TypeId × H) → PyObj → Option H
  | [], _ => none
  | (t, cb) :: rest, e =>
    if isinstance e t then some cb else findIsinstanceHandler rest e

/-- `Dispatcher` of `suspect/dag/visitor.py`: a handler lookup table plus
the `allow_missing` flag. -/
structure Dispatcher (V : Type) where
  lookup : List (TypeId × (PyObj → V))
  allow_missing : Bool

/-- `Dispatcher.dispatch`: exact-type lookup first, then the superclass
scan in insertion order; with no applicable handler it returns `None`
(`.ok none`) when `allow_missing` is set and raises otherwise. -/
def Dispatcher.dispatch {V : Type} (d : Dispatcher V) (e : PyObj) :
    Except String (Option V) :=
  match dictGet d.lookup e.ty with
  | some cb => .ok (some (cb e))
  | none =>
    match findIsinstanceHandler d.lookup e with
    | some cb => .ok (some (cb e))
    | none =>
      if d.allow_missing then .ok none
      else .error ("Could not find callback for expression of type " ++ toString e.ty)

/-- `Visitor.visit`: exact-type lookup, then the superclass scan; when no
handler applies it returns the `missing` value (Python `None`).  The result
type is generic so the same code serves the forward (`Option V`) and
backward (`BackResult V`) visitors, as the single inherited `visit` does in
the source. -/
def visit {Ctx R : Type} (handlers : List (TypeId × (PyObj → Ctx → R)))
    (missing : R) (e : PyObj) (ctx : Ctx) : R :=
  match dictGet handlers e.ty with
  | some cb => cb e ctx
  | none =>
    match findIsinstanceHandler handlers e with
    | some cb => cb e ctx
    | none => missing

/-- `ForwardVisitor.__call__`: visit, and when a value is produced store it
in the context keyed by the expression itself; return the visit result
together with the updated context. -/
def forwardVisitorCall {V : Type}
    (handlers : List (TypeId × (PyObj → List (PyObj × V) → Option V)))
    (e : PyObj) (ctx : List (PyObj × V)) : Option V × List (PyObj × V) :=
  match visit handlers none e ctx with
  | some r => (some r, dictSet ctx e r)
  | none => (none, ctx)

/-- What a backward handler can return in Python: `None`, a dict of
child-to-value entries, or any other value. -/
inductive BackResult (V : Type) where
  | nothing
  | dict (entries : List (PyObj × V))
  | other
deriving DecidableEq

/-- `BackwardVisitor.__call__`: visit, then apply `handle_result` to each
entry of a dict result in order; a non-dict, non-`None` result raises. -/
def backwardVisitorCall {V Ctx : Type}
    (handlers : List (TypeId × (PyObj → Ctx → BackResult V)))
    (handle_result : PyObj → V → Ctx → Ctx)
    (e : PyObj) (ctx : Ctx) : Except String (BackResult V × Ctx) :=
  match visit handlers BackResult.nothing e ctx with
  | .dict entries =>
      .ok (.dict entries, entries.foldl (fun c kv => handle_result kv.1 kv.2 c) ctx)
  | .nothing => .ok (.nothing, ctx)
  | .other => .error "BackwardVisitor must return dict"

/- ### Association-list lemmas -/

theorem dictGet_dictSet_self {κ α : Type} [DecidableEq κ]
    (m : List (κ × α)) (k : κ) (v : α) : dictGet (dictSet m k v) k = some v := by
  induction m with
  | nil => simp [dictSet, dictGet]
  | cons p rest ih =>
    by_cases h : p.1 = k
    · simp [dictSet, dictGet, h]
    · simp [dictSet, dictGet, h, ih]

theorem dictGet_dictSet_ne {κ α : Type} [DecidableEq κ]
    (m : List (κ × α)) (k k' : κ) (v : α) (hne : k' ≠ k) :
    dictGet (dictSet m k v) k' = dictGet m k' := by
  induction m with
  | nil =>
    simp only [dictSet, dictGet]
    rw [if_neg (fun hc => hne hc.symm)]
  | cons p rest ih =>
    obtain ⟨pk, pv⟩ := p
    by_cases h : pk = k
    · subst h
      simp only [dictSet, if_pos rfl, dictGet]
      rw [if_neg (fun hc => hne hc.symm), if_neg (fun hc => hne hc.symm)]
    · simp only [dictSet, if_neg h, dictGet]
      by_cases h2 : pk = k'
      · rw [if_pos h2, if_pos h2]
      · rw [if_neg h2, if_neg h2]
        exact ih

theorem dictGet_eq_none_of_no_isinstance {H : Type}
    (handlers : List (TypeId × H)) (e : PyObj)
    (h : ∀ t cb, (t, cb) ∈ handlers → isinstance e t = false) :
    dictGet handlers e.ty = none := by
  induction handlers with
  | nil => rfl
  | cons p rest ih =>
    have hp := h p.1 p.2 (by simp)
    have hne : p.1 ≠ e.ty := by
      intro hcontra
      simp [isinstance, hcontra] at hp
    simp only [dictGet]
    rw [if_neg hne]
    exact ih (fun t cb hm => h t cb (List.mem_cons_of_mem _ hm))

theorem findIsinstanceHandler_eq_none {H : Type}
    (handlers : List (TypeId × H)) (e : PyObj)
    (h : ∀ t cb, (t, cb) ∈ handlers → isinstance e t = false) :
    findIsinstanceHandler handlers e = none := by
  induction handlers with
  | nil => rfl
  | cons p rest ih =>
    have hp := h p.1 p.2 (by simp)
    simp only [findIsinstanceHandler, hp]
    simp only [Bool.false_eq_true, if_false]
    exact ih (fun t cb hm => h t cb (List.mem_cons_of_mem _ hm))

/- ### Data model of `suspect/summary.py`

`ArbitraryPrecisionBound`, `Convexity` and `PolynomialDegree` come from
modules of this repository that are outside `src/`; they are modelled from
the specification.  The problem DAG registries are the name-keyed,
insertion-ordered mappings of the spec. -/

/-- Modelled from the spec: `ArbitraryPrecisionBound` is a pair
`(lower, upper)`, each possibly absent (unbounded / not yet known);
`summary.py` only reads the two fields and the default `Bound(None, None)`. -/
structure Bound where
  lower_bound : Option Int
  upper_bound : Option Int
deriving DecidableEq

/-- Modelled from the spec: convexity is one of `linear`, `convex`,
`concave`, `unknown`. -/
inductive Convexity where
  | linear
  | convex
  | concave
  | unknown
deriving DecidableEq

/-- Modelled from the spec: `linear` is the bottom of the convexity
lattice; `summary.py` only calls this predicate on a convexity value. -/
def Convexity.is_linear : Convexity → Bool
  | .linear => true
  | _ => false

/-- Modelled from the spec: a polynomial degree is a non-negative integer
or a distinguished non-polynomial value (`none`). -/
abbrev PolynomialDegree := Option Nat

/-- Modelled from the spec: degree exactly 1. -/
def PolynomialDegree.is_linear (d : PolynomialDegree) : Bool := d = some 1

/-- Modelled from the spec: degree exactly 2. -/
def PolynomialDegree.is_quadratic (d : PolynomialDegree) : Bool := d = some 2

/-- Modelled from the spec: the degree is an integer, i.e. the expression
is a polynomial at all. -/
def PolynomialDegree.is_polynomial (d : PolynomialDegree) : Bool := d.isSome

/-- Variable domain tag. -/
inductive VarDomain where
  | binary
  | integer
  | continuous
deriving DecidableEq

/-- A variable node of the problem DAG: identity, `name` attribute and
domain tag (`is_binary` / `is_integer` in the source test the tag). -/
structure PyVariable where
  oid : Nat
  name : String
  domain : VarDomain
deriving DecidableEq

/-- An objective node: identity, `name` attribute and sense
(`is_minimizing`). -/
structure PyObjective where
  oid : Nat
  name : String
  minimizing : Bool
deriving DecidableEq

/-- A constraint node: identity, `name` attribute and the
equality/inequality flag (`is_equality`). -/
structure PyConstraint where
  oid : Nat
  name : String
  equality : Bool
deriving DecidableEq

/-- The problem DAG as `detect_special_structure` reads it: a name plus
three name-keyed, insertion-ordered registries. -/
structure Problem where
  (name : String)
  («variables» : List (String × PyVariable))
  (objectives : List (String × PyObjective))
  (constraints : List (String × PyConstraint))

/-- The analysis context after the propagation passes: bounds and
convexities keyed by node identity (`ctx.bound`, `ctx.convexity`). -/
structure AnalysisCtx where
  bound : List (Nat × Bound)
  convexity : List (Nat × Convexity)
deriving DecidableEq

/-- A `variables[...]` summary entry (keys `name`, `type`,
`lower_bound`, `upper_bound`). -/
structure VarInfo where
  name : String
  vtype : String
  lower_bound : Option Int
  upper_bound : Option Int
deriving DecidableEq

/-- An `objectives[...]` summary entry (keys `sense`, `convexity`,
`polynomial_degree`, `lower_bound`, `upper_bound`). -/
structure ObjInfo where
  sense : String
  convexity : Convexity
  polynomial_degree : PolynomialDegree
  lower_bound : Option Int
  upper_bound : Option Int
deriving DecidableEq

/-- A `constraints[...]` summary entry (keys `type`, `convexity`,
`polynomial_degree`). -/
structure ConsInfo where
  ctype : String
  convexity : Convexity
  polynomial_degree : PolynomialDegree
deriving DecidableEq

/-- `ModelInformation`: the report object. -/
structure ModelInformation where
  (name : String)
  («variables» : List (String × VarInfo))
  (objectives : List (String × ObjInfo))
  (constraints : List (String × ConsInfo))
deriving DecidableEq

/-- The inner `_objtype` of `ModelInformation.objtype`, with the `assert`
embedded as a possible failure. -/
def objtypeEntry (v : ObjInfo) : Except String String :=
  if v.convexity.is_linear then
    if v.polynomial_degree.is_linear then .ok "linear"
    else .error "AssertionError: deg.is_linear()"
  else if v.polynomial_degree.is_quadratic then .ok "quadratic"
  else if v.polynomial_degree.is_polynomial then .ok "polynomial"
  else .ok "nonlinear"

/-- The dict comprehension of `ModelInformation.objtype`, applied over the
objective entries in order. -/
def objtypeAux : List (String × ObjInfo) → List (String × String) →
    Except String (List (String × String))
  | [], acc => .ok acc
  | (k, v) :: rest, acc =>
    match objtypeEntry v with
    | .error e => .error e
    | .ok t => objtypeAux rest (dictSet acc k t)

/-- `ModelInformation.objtype`. -/
def ModelInformation.objtype (m : ModelInformation) :
    Except String (List (String × String)) :=
  objtypeAux m.objectives []

/-- The `'binary' / 'integer' / 'continuous'` tag written into a variable
summary entry. -/
def variableTypeString : VarDomain → String
  | .binary => "binary"
  | .integer => "integer"
  | .continuous => "continuous"

/-- The variables loop of `detect_special_structure`: look up
`ctx.bound[variable]` (a missing entry raises `KeyError`), warn when the
variable's `name` attribute is already a key of the partial summary, then
store the entry under the registry key. -/
def buildVariables (ctx : AnalysisCtx) :
    List (String × PyVariable) → List (String × VarInfo) → List String →
    Except String (List (String × VarInfo) × List String)
  | [], acc, ws => .ok (acc, ws)
  | (vname, v) :: rest, acc, ws =>
    match dictGet ctx.bound v.oid with
    | none => .error ("KeyError: bound of variable " ++ vname)
    | some b =>
      let ws' := if dictContains acc v.name
        then ws ++ ["Duplicate variable " ++ v.name] else ws
      buildVariables ctx rest
        (dictSet acc vname
          ⟨vname, variableTypeString v.domain, b.lower_bound, b.upper_bound⟩)
        ws'

/-- The objectives loop of `detect_special_structure`: warn when the
registry key is already a key of the partial summary, read the bound with
`ctx.bound.get(obj, Bound(None, None))`, look up convexity and degree
(missing entries raise `KeyError`), then store the entry under the
objective's `name` attribute. -/
def buildObjectives (ctx : AnalysisCtx)
    (polynomial : List (Nat × PolynomialDegree)) :
    List (String × PyObjective) → List (String × ObjInfo) → List String →
    Except String (List (String × ObjInfo) × List String)
  | [], acc, ws => .ok (acc, ws)
  | (oname, o) :: rest, acc, ws =>
    let ws' := if dictContains acc oname
      then ws ++ ["Duplicate objective " ++ oname] else ws
    let sense := if o.minimizing then "min" else "max"
    let ob := (dictGet ctx.bound o.oid).getD ⟨none, none⟩
    match dictGet ctx.convexity o.oid with
    | none => .error ("KeyError: convexity of objective " ++ oname)
    | some cvx =>
      match dictGet polynomial o.oid with
      | none => .error ("KeyError: degree of objective " ++ oname)
      | some poly =>
        buildObjectives ctx polynomial rest
          (dictSet acc o.name ⟨sense, cvx, poly, ob.lower_bound, ob.upper_bound⟩)
          ws'

/-- The constraints loop of `detect_special_structure`: warn when the
registry key is already a key of the partial summary, look up convexity and
degree (missing entries raise `KeyError`), then store the entry under the
registry key. -/
def buildConstraints (ctx : AnalysisCtx)
    (polynomial : List (Nat × PolynomialDegree)) :
    List (String × PyConstraint) → List (String × ConsInfo) → List String →
    Except String (List (String × ConsInfo) × List String)
  | [], acc, ws => .ok (acc, ws)
  | (cname, c) :: rest, acc, ws =>
    let ws' := if dictContains acc cname
      then ws ++ ["Duplicate constraint " ++ cname] else ws
    let ctype := if c.equality then "equality" else "inequality"
    match dictGet ctx.convexity c.oid with
    | none => .error ("KeyError: convexity of constraint " ++ cname)
    | some cvx =>
      match dictGet polynomial c.oid with
      | none => .error ("KeyError: degree of constraint " ++ cname)
      | some poly =>
        buildConstraints ctx polynomial rest
          (dictSet acc cname ⟨ctype, cvx, poly⟩) ws'

/-- The summary-assembly tail of `detect_special_structure`: the three
loops in source order, with accumulated warnings. -/
def summaryOfCtx (problem : Problem) (ctx : AnalysisCtx)
    (polynomial : List (Nat × PolynomialDegree)) :
    Except String (ModelInformation × List String) :=
  match buildVariables ctx problem.«variables» [] [] with
  | .error e => .error e
  | .ok (vars, ws1) =>
    match buildObjectives ctx polynomial problem.objectives [] ws1 with
    | .error e => .error e
    | .ok (objs, ws2) =>
      match buildConstraints ctx polynomial problem.constraints [] ws2 with
      | .error e => .error e
      | .ok (cons, ws3) =>
        .ok (⟨problem.name, vars, objs, cons⟩, ws3)

/-- The propagate/tighten loop of `detect_special_structure`, instrumented
with the trace of per-round change counts `(len(changes_prop),
len(changes_tigh))`.  `changes_tigh` starts as `None` and the loop breaks
once a round reports no change from either step. -/
def boundIterTrace
    (prop tigh : AnalysisCtx → Option (List Nat) → AnalysisCtx × List Nat) :
    Nat → AnalysisCtx → Option (List Nat) → AnalysisCtx × List (Nat × Nat)
  | 0, ctx, _ => (ctx, [])
  | Nat.succ fuel, ctx, ch =>
    let pr := prop ctx ch
    let ti := tigh pr.1 (some pr.2)
    if ti.2.length == 0 && pr.2.length == 0 then
      (ti.1, [(pr.2.length, ti.2.length)])
    else
      let r := boundIterTrace prop tigh fuel ti.1 (some ti.2)
      (r.1, (pr.2.length, ti.2.length) :: r.2)

/-- The operations `summary.py` imports from modules outside `src/`,
kept fully abstract: bound seeding, the two bound passes, the polynomial
degree pass and the special-structure (convexity) pass. -/
structure ExternalCore where
  initBounds : Problem → AnalysisCtx
  propagateBounds : Problem → AnalysisCtx → Option (List Nat) → AnalysisCtx × List Nat
  tightenBounds : Problem → AnalysisCtx → Option (List Nat) → AnalysisCtx × List Nat
  polynomialDegrees : Problem → AnalysisCtx → List (Nat × PolynomialDegree)
  propagateSpecialStructure : Problem → AnalysisCtx → AnalysisCtx

/-- `detect_special_structure(problem, max_iter)`: seed bounds, run the
propagate/tighten loop at most `max_iter` rounds, run the degree pass and
the convexity pass on the resulting context, then assemble the summary. -/
def detect_special_structure (ext : ExternalCore) (problem : Problem)
    (max_iter : Nat) : Except String (ModelInformation × List String) :=
  let ctx0 := ext.initBounds problem
  let lr := boundIterTrace (ext.propagateBounds problem)
    (ext.tightenBounds problem) max_iter ctx0 none
  let polynomial := ext.polynomialDegrees problem lr.1
  let ctx1 := ext.propagateSpecialStructure problem lr.1
  summaryOfCtx problem ctx1 polynomial

/-- `detect_special_structure` with the default `max_iter=10`. -/
def detect_special_structure_default (ext : ExternalCore) (problem : Problem) :
    Except String (ModelInformation × List String) :=
  detect_special_structure ext problem 10

theorem visit_eq_missing_of_no_handler {Ctx R : Type}
    (handlers : List (TypeId × (PyObj → Ctx → R))) (missing : R)
    (e : PyObj) (ctx : Ctx)
    (h : ∀ t cb, (t, cb) ∈ handlers → isinstance e t = false) :
    visit handlers missing e ctx = missing := by
  unfold visit
  rw [dictGet_eq_none_of_no_isinstance handlers e h,
      findIsinstanceHandler_eq_none handlers e h]

theorem findIsinstanceHandler_append {H : Type}
    (l1 l2 : List (TypeId × H)) (t : TypeId) (cb : H) (e : PyObj)
    (hbefore : ∀ t' cb', (t', cb') ∈ l1 → isinstance e t' = false)
    (hmatch : isinstance e t = true) :
    findIsinstanceHandler (l1 ++ (t, cb) :: l2) e = some cb := by
  induction l1 with
  | nil => simp [findIsinstanceHandler, hmatch]
  | cons p rest ih =>
    have hp := hbefore p.1 p.2 (by simp)
    simp only [List.cons_append, findIsinstanceHandler, hp, Bool.false_eq_true,
      if_false]
    exact ih (fun t' cb' hm => hbefore t' cb' (List.mem_cons_of_mem _ hm))

theorem foldl_append_singleton {α : Type} (l acc : List α) :
    l.foldl (fun c x => c ++ [x]) acc = acc ++ l := by
  induction l generalizing acc with
  | nil => simp
  | cons x xs ih => simp [List.foldl, ih]

/- ### Claim theorems -/

/-- C6: when no registered handler applies to an expression, neither by
exact type nor by supertype, `Dispatcher.dispatch` returns `None` when
`allow_missing` is set and raises a `RuntimeError` to the caller
otherwise. -/
theorem dispatch_missing_handler_policy {V : Type}
    (lookup : List (TypeId × (PyObj → V))) (e : PyObj)
    (h : ∀ t cb, (t, cb) ∈ lookup → isinstance e t = false) :
    Dispatcher.dispatch ⟨lookup, true⟩ e = .ok none ∧
    Dispatcher.dispatch ⟨lookup, false⟩ e =
      .error ("Could not find callback for expression of type " ++ toString e.ty) := by
  unfold Dispatcher.dispatch
  rw [dictGet_eq_none_of_no_isinstance lookup e h,
    findIsinstanceHandler_eq_none lookup e h]
  exact ⟨rfl, rfl⟩

theorem dispatch_missing_handler_policy_witness :
    Dispatcher.dispatch ⟨[(5, fun _ => (1 : Nat))], true⟩ ⟨0, 3, [4]⟩ = .ok none ∧
    Dispatcher.dispatch ⟨[(5, fun _ => (1 : Nat))], false⟩ ⟨0, 3, [4]⟩ =
      .error ("Could not find callback for expression of type " ++
        toString (PyObj.mk 0 3 [4]).ty) :=
  dispatch_missing_handler_policy [(5, fun _ => (1 : Nat))] ⟨0, 3, [4]⟩
    (by
      intro t cb hm
      simp only [List.mem_singleton, Prod.mk.injEq] at hm
      rw [hm.1]
      rfl)

/-- C9: `Visitor.visit` has no `allow_missing` configuration and never
raises a lookup failure: with no handler matching the expression's type
exactly or by supertype it returns `None`, and both `ForwardVisitor` and
`BackwardVisitor` then leave the context unchanged. -/
theorem visitor_missing_handler_silent {V W Ctx : Type}
    (fh : List (TypeId × (PyObj → List (PyObj × V) → Option V)))
    (bh : List (TypeId × (PyObj → Ctx → BackResult W)))
    (hr : PyObj → W → Ctx → Ctx)
    (e : PyObj) (fctx : List (PyObj × V)) (bctx : Ctx)
    (hf : ∀ t cb, (t, cb) ∈ fh → isinstance e t = false)
    (hb : ∀ t cb, (t, cb) ∈ bh → isinstance e t = false) :
    visit fh none e fctx = none ∧
    forwardVisitorCall fh e fctx = (none, fctx) ∧
    backwardVisitorCall bh hr e bctx = .ok (.nothing, bctx) := by
  have h1 := visit_eq_missing_of_no_handler fh none e fctx hf
  have h2 := visit_eq_missing_of_no_handler bh BackResult.nothing e bctx hb
  refine ⟨h1, ?_, ?_⟩
  · unfold forwardVisitorCall
    rw [h1]
  · unfold backwardVisitorCall
    rw [h2]

theorem visitor_missing_handler_silent_witness :
    visit [(5, fun _ (_ : List (PyObj × Nat)) => some (1 : Nat))] none
      ⟨0, 3, [4]⟩ [] = none ∧
    forwardVisitorCall [(5, fun _ (_ : List (PyObj × Nat)) => some (1 : Nat))]
      ⟨0, 3, [4]⟩ [] = (none, []) ∧
    backwardVisitorCall [(5, fun _ (_ : Nat) => BackResult.dict [])]
      (fun _ (_ : Nat) c => c) ⟨0, 3, [4]⟩ 0 = .ok (.nothing, 0) :=
  visitor_missing_handler_silent _ _ _ _ _ _
    (by
      intro t cb hm
      simp only [List.mem_singleton, Prod.mk.injEq] at hm
      rw [hm.1]
      rfl)
    (by
      intro t cb hm
      simp only [List.mem_singleton, Prod.mk.injEq] at hm
      rw [hm.1]
      rfl)

/-- C7: `ForwardVisitor.__call__` returns exactly the visit result; a
produced value is stored in the context keyed by the expression itself,
with every other key unchanged, and a `None` result leaves the context
entirely unchanged. -/
theorem forward_visitor_result_storage {V : Type}
    (handlers : List (TypeId × (PyObj → List (PyObj × V) → Option V)))
    (e : PyObj) (ctx : List (PyObj × V)) :
    (forwardVisitorCall handlers e ctx).1 = visit handlers none e ctx ∧
    (visit handlers none e ctx = none →
      (forwardVisitorCall handlers e ctx).2 = ctx) ∧
    (∀ v, visit handlers none e ctx = some v →
      dictGet (forwardVisitorCall handlers e ctx).2 e = some v ∧
      ∀ k, k ≠ e → dictGet (forwardVisitorCall handlers e ctx).2 k = dictGet ctx k) := by
  unfold forwardVisitorCall
  cases hv : visit handlers none e ctx with
  | none => exact ⟨rfl, fun _ => rfl, fun v hc => Option.noConfusion hc⟩
  | some r =>
    refine ⟨rfl, fun hc => Option.noConfusion hc, ?_⟩
    intro v hv2
    injection hv2 with hrv
    subst hrv
    exact ⟨dictGet_dictSet_self ctx e r,
      fun k hk => dictGet_dictSet_ne ctx e k r hk⟩

theorem forward_visitor_result_storage_witness :
    dictGet (forwardVisitorCall [(3, fun _ _ => some (42 : Nat))]
      ⟨0, 3, []⟩ [(⟨9, 3, []⟩, 7)]).2 ⟨0, 3, []⟩ = some 42 ∧
    dictGet (forwardVisitorCall [(3, fun _ _ => some (42 : Nat))]
      ⟨0, 3, []⟩ [(⟨9, 3, []⟩, 7)]).2 ⟨9, 3, []⟩ = some 7 := by
  have h := (forward_visitor_result_storage [(3, fun _ _ => some (42 : Nat))]
    ⟨0, 3, []⟩ [(⟨9, 3, []⟩, 7)]).2.2 42 rfl
  exact ⟨h.1, by rw [h.2 ⟨9, 3, []⟩ (by decide)]; rfl⟩

/-- C5: when a backward handler returns a dict, `BackwardVisitor.__call__`
applies each entry individually through `handle_result`, once per entry in
order (instantiating the merge with a log shows the final context is the
initial one extended by exactly the entry list); any non-dict, non-`None`
handler result raises a `RuntimeError`. -/
theorem backward_visitor_per_entry_merge {V Ctx : Type}
    (handlers : List (TypeId × (PyObj → Ctx → BackResult V)))
    (logh : List (TypeId × (PyObj → List (PyObj × V) → BackResult V)))
    (hr : PyObj → V → Ctx → Ctx) (e : PyObj) (ctx : Ctx)
    (lctx : List (PyObj × V)) :
    (∀ entries, visit handlers .nothing e ctx = .dict entries →
      backwardVisitorCall handlers hr e ctx =
        .ok (.dict entries, entries.foldl (fun c kv => hr kv.1 kv.2 c) ctx)) ∧
    (∀ entries, visit logh .nothing e lctx = .dict entries →
      backwardVisitorCall logh (fun k v c => c ++ [(k, v)]) e lctx =
        .ok (.dict entries, lctx ++ entries)) ∧
    (visit handlers .nothing e ctx = .other →
      backwardVisitorCall handlers hr e ctx =
        .error "BackwardVisitor must return dict") := by
  refine ⟨fun entries hv => ?_, fun entries hv => ?_, fun hv => ?_⟩
  · unfold backwardVisitorCall
    rw [hv]
  · unfold backwardVisitorCall
    rw [hv]
    show Except.ok (BackResult.dict entries,
      List.foldl (fun c kv => c ++ [kv]) lctx entries) =
      Except.ok (BackResult.dict entries, lctx ++ entries)
    rw [foldl_append_singleton]
  · unfold backwardVisitorCall
    rw [hv]

theorem backward_visitor_per_entry_merge_witness :
    backwardVisitorCall
      [(3, fun _ (_ : List (PyObj × Nat)) =>
        BackResult.dict [(⟨1, 0, []⟩, 5), (⟨2, 0, []⟩, 6)])]
      (fun k v c => c ++ [(k, v)]) ⟨0, 3, []⟩ [] =
      .ok (.dict [(⟨1, 0, []⟩, 5), (⟨2, 0, []⟩, 6)],
        [(⟨1, 0, []⟩, 5), (⟨2, 0, []⟩, 6)]) ∧
    backwardVisitorCall [(3, fun _ (_ : Nat) => (BackResult.other : BackResult Nat))]
      (fun _ _ c => c) ⟨0, 3, []⟩ 0 = .error "BackwardVisitor must return dict" := by
  constructor
  · have h := (backward_visitor_per_entry_merge
      [(3, fun _ (_ : Nat) => (BackResult.other : BackResult Nat))]
      [(3, fun _ (_ : List (PyObj × Nat)) =>
        BackResult.dict [(⟨1, 0, []⟩, 5), (⟨2, 0, []⟩, 6)])]
      (fun _ _ c => c) ⟨0, 3, []⟩ 0 []).2.1
      [(⟨1, 0, []⟩, 5), (⟨2, 0, []⟩, 6)] rfl
    exact h
  · exact (backward_visitor_per_entry_merge
      [(3, fun _ (_ : Nat) => (BackResult.other : BackResult Nat))]
      [(3, fun _ (_ : List (PyObj × Nat)) => (BackResult.nothing : BackResult Nat))]
      (fun _ _ c => c) ⟨0, 3, []⟩ 0 []).2.2 rfl

/-- C1 counterexample: the exact type `2` (whose superclasses are `1`,
itself a subclass of `0`) has no registered handler; handlers are
registered for both supertypes `0` and `1`.  The fallback picks the first
matching entry in registration order, so the two dispatchers, identical up
to registration order, resolve to different handlers — refuting that the
most specific registered supertype is chosen regardless of registration
order. -/
theorem dispatch_fallback_not_most_specific_cex :
    Dispatcher.dispatch
      ⟨[(0, fun _ => (10 : Nat)), (1, fun _ => 20)], false⟩ ⟨7, 2, [1, 0]⟩ =
      .ok (some 10) ∧
    Dispatcher.dispatch
      ⟨[(1, fun _ => (20 : Nat)), (0, fun _ => 10)], false⟩ ⟨7, 2, [1, 0]⟩ =
      .ok (some 20) :=
  ⟨rfl, rfl⟩

/-- C1 amended: when the exact type has no registered handler,
`Dispatcher.dispatch` scans the handler map in insertion (registration)
order and invokes the first handler whose registered type the expression
is an instance of; resolution therefore depends on registration order,
not on specificity. -/
theorem dispatch_fallback_first_match_in_registration_order {V : Type}
    (l1 l2 : List (TypeId × (PyObj → V))) (t : TypeId) (cb : PyObj → V)
    (e : PyObj) (am : Bool)
    (hexact : dictGet (l1 ++ (t, cb) :: l2) e.ty = none)
    (hbefore : ∀ t' cb', (t', cb') ∈ l1 → isinstance e t' = false)
    (hmatch : isinstance e t = true) :
    Dispatcher.dispatch ⟨l1 ++ (t, cb) :: l2, am⟩ e = .ok (some (cb e)) := by
  unfold Dispatcher.dispatch
  rw [hexact, findIsinstanceHandler_append l1 l2 t cb e hbefore hmatch]

theorem dispatch_fallback_first_match_witness :
    Dispatcher.dispatch
      ⟨[(9, fun _ => (0 : Nat)), (1, fun _ => 20), (0, fun _ => 10)], true⟩
      ⟨7, 2, [1, 0]⟩ = .ok (some 20) :=
  dispatch_fallback_first_match_in_registration_order
    [(9, fun _ => (0 : Nat))] [(0, fun _ => 10)] 1 (fun _ => 20)
    ⟨7, 2, [1, 0]⟩ true rfl
    (by
      intro t' cb' hm
      simp only [List.mem_singleton, Prod.mk.injEq] at hm
      rw [hm.1]
      rfl)
    rfl

theorem boundIterTrace_succ
    (prop tigh : AnalysisCtx → Option (List Nat) → AnalysisCtx × List Nat)
    (fuel : Nat) (ctx : AnalysisCtx) (ch : Option (List Nat)) :
    boundIterTrace prop tigh (fuel + 1) ctx ch =
      (if (tigh (prop ctx ch).1 (some (prop ctx ch).2)).2.length == 0 &&
          ((prop ctx ch).2.length == 0) then
        ((tigh (prop ctx ch).1 (some (prop ctx ch).2)).1,
          [((prop ctx ch).2.length,
            (tigh (prop ctx ch).1 (some (prop ctx ch).2)).2.length)])
      else
        ((boundIterTrace prop tigh fuel
            (tigh (prop ctx ch).1 (some (prop ctx ch).2)).1
            (some (tigh (prop ctx ch).1 (some (prop ctx ch).2)).2)).1,
          ((prop ctx ch).2.length,
            (tigh (prop ctx ch).1 (some (prop ctx ch).2)).2.length) ::
          (boundIterTrace prop tigh fuel
            (tigh (prop ctx ch).1 (some (prop ctx ch).2)).1
            (some (tigh (prop ctx ch).1 (some (prop ctx ch).2)).2)).2)) := by
  conv_lhs => rw [boundIterTrace]

/-- C4: the propagate/tighten loop of `detect_special_structure` runs at
most `max_iter` rounds; every round except possibly the last reported a
change from at least one of the two steps; and when the loop ran fewer
than `max_iter` rounds the final round reported no change from either
step.  The default entry point uses `max_iter = 10`. -/
theorem bound_loop_iteration_bound
    (prop tigh : AnalysisCtx → Option (List Nat) → AnalysisCtx × List Nat)
    (fuel : Nat) :
    ∀ (ctx : AnalysisCtx) (ch : Option (List Nat)),
    (boundIterTrace prop tigh fuel ctx ch).2.length ≤ fuel ∧
    (∀ i, i + 1 < (boundIterTrace prop tigh fuel ctx ch).2.length →
      (boundIterTrace prop tigh fuel ctx ch).2.get? i ≠ some (0, 0)) ∧
    ((boundIterTrace prop tigh fuel ctx ch).2.length < fuel →
      (boundIterTrace prop tigh fuel ctx ch).2.get?
        ((boundIterTrace prop tigh fuel ctx ch).2.length - 1) = some (0, 0)) ∧
    (∀ (ext : ExternalCore) (problem : Problem),
      detect_special_structure_default ext problem =
        detect_special_structure ext problem 10) := by
  induction fuel with
  | zero =>
    intro ctx ch
    refine ⟨Nat.le_refl 0, fun i hi => ?_,
      fun hlt => absurd hlt (by simp [boundIterTrace]), fun _ _ => rfl⟩
    simp [boundIterTrace] at hi
  | succ n ih =>
    intro ctx ch
    by_cases hc : ((tigh (prop ctx ch).1 (some (prop ctx ch).2)).2.length == 0 &&
        ((prop ctx ch).2.length == 0)) = true
    · have htr : boundIterTrace prop tigh (n + 1) ctx ch =
          ((tigh (prop ctx ch).1 (some (prop ctx ch).2)).1,
            [((prop ctx ch).2.length,
              (tigh (prop ctx ch).1 (some (prop ctx ch).2)).2.length)]) := by
        rw [boundIterTrace_succ]
        simp only [hc, if_true]
      have hlen : (prop ctx ch).2.length = 0 ∧
          (tigh (prop ctx ch).1 (some (prop ctx ch).2)).2.length = 0 := by
        simp only [Bool.and_eq_true, beq_iff_eq] at hc
        exact ⟨hc.2, hc.1⟩
      rw [htr]
      refine ⟨by simp, fun i hi => ?_, fun _ => ?_, fun _ _ => rfl⟩
      · simp at hi
      · simp [hlen.1, hlen.2]
    · have htr : boundIterTrace prop tigh (n + 1) ctx ch =
          ((boundIterTrace prop tigh n
              (tigh (prop ctx ch).1 (some (prop ctx ch).2)).1
              (some (tigh (prop ctx ch).1 (some (prop ctx ch).2)).2)).1,
            ((prop ctx ch).2.length,
              (tigh (prop ctx ch).1 (some (prop ctx ch).2)).2.length) ::
            (boundIterTrace prop tigh n
              (tigh (prop ctx ch).1 (some (prop ctx ch).2)).1
              (some (tigh (prop ctx ch).1 (some (prop ctx ch).2)).2)).2) := by
        rw [boundIterTrace_succ]
        simp only [Bool.not_eq_true] at hc
        simp only [hc, Bool.false_eq_true, if_false]
      have hentry : ((prop ctx ch).2.length,
          (tigh (prop ctx ch).1 (some (prop ctx ch).2)).2.length) ≠ ((0 : Nat), (0 : Nat)) := by
        intro heq
        apply hc
        rw [Prod.mk.injEq] at heq
        simp [heq.1, heq.2]
      obtain ⟨iha, ihb, ihc, -⟩ := ih (tigh (prop ctx ch).1 (some (prop ctx ch).2)).1
        (some (tigh (prop ctx ch).1 (some (prop ctx ch).2)).2)
      rw [htr]
      refine ⟨by simpa using Nat.succ_le_succ iha, fun i hi => ?_, fun hlt => ?_,
        fun _ _ => rfl⟩
      · cases i with
        | zero =>
          simp only [List.get?]
          intro hcontra
          exact hentry (Option.some.inj hcontra)
        | succ j =>
          simp only [List.get?]
          simp only [List.length_cons] at hi
          exact ihb j (Nat.lt_of_succ_lt_succ hi)
      · simp only [List.length_cons] at hlt
        have hlt' : (boundIterTrace prop tigh n
            (tigh (prop ctx ch).1 (some (prop ctx ch).2)).1
            (some (tigh (prop ctx ch).1 (some (prop ctx ch).2)).2)).2.length < n :=
          Nat.lt_of_succ_lt_succ hlt
        have hpos : 0 < (boundIterTrace prop tigh n
            (tigh (prop ctx ch).1 (some (prop ctx ch).2)).1
            (some (tigh (prop ctx ch).1 (some (prop ctx ch).2)).2)).2.length := by
          by_contra hz
          push_neg at hz
          have hz0 : (boundIterTrace prop tigh n
              (tigh (prop ctx ch).1 (some (prop ctx ch).2)).1
              (some (tigh (prop ctx ch).1 (some (prop ctx ch).2)).2)).2.length = 0 :=
            Nat.le_zero.mp hz
          rw [hz0] at hlt'
          -- the trace of a positive-fuel run is nonempty, contradiction below
          have := ihc (by rw [hz0]; exact hlt')
          rw [hz0] at this
          simp at this
          rcases List.length_eq_zero.mp hz0 with hnil
          rw [hnil] at this
          simp [List.get?] at this
        simp only [List.length_cons, Nat.add_sub_cancel]
        have hsucc : (boundIterTrace prop tigh n
            (tigh (prop ctx ch).1 (some (prop ctx ch).2)).1
            (some (tigh (prop ctx ch).1 (some (prop ctx ch).2)).2)).2.length =
            ((boundIterTrace prop tigh n
              (tigh (prop ctx ch).1 (some (prop ctx ch).2)).1
              (some (tigh (prop ctx ch).1 (some (prop ctx ch).2)).2)).2.length - 1) + 1 :=
          (Nat.succ_pred_eq_of_pos hpos).symm
        rw [hsucc, List.get?_cons_succ]
        exact ihc hlt'

theorem bound_loop_iteration_bound_witness :
    (boundIterTrace (fun cx _ => (cx, [])) (fun cx _ => (cx, [0])) 3
      ⟨[], []⟩ none).2.length ≤ 3 ∧
    (boundIterTrace (fun cx _ => (cx, [])) (fun cx _ => (cx, [0])) 3
      ⟨[], []⟩ none).2.get? 0 ≠ some (0, 0) ∧
    (boundIterTrace (fun cx _ => (cx, [])) (fun cx _ => (cx, [])) 5
      ⟨[], []⟩ none).2.get?
      ((boundIterTrace (fun cx _ => (cx, [])) (fun cx _ => (cx, [])) 5
        ⟨[], []⟩ none).2.length - 1) = some (0, 0) := by
  obtain ⟨ha, hb, -, -⟩ := bound_loop_iteration_bound
    (fun cx _ => (cx, [])) (fun cx _ => (cx, [0])) 3 ⟨[], []⟩ none
  obtain ⟨-, -, hc2, -⟩ := bound_loop_iteration_bound
    (fun cx _ => (cx, [])) (fun cx _ => (cx, [])) 5 ⟨[], []⟩ none
  exact ⟨ha, hb 0 (by decide), hc2 (by decide)⟩

/-- C8: reaching `max_iter` without the bound loop converging is not an
error: `detect_special_structure` performs no convergence check after the
loop, and still runs the degree pass, the convexity pass and the summary
construction on the post-loop context; whenever the assembly of the
summary succeeds, so does the whole call, even when the final round still
reported changes. -/
theorem non_convergence_is_not_an_error (ext : ExternalCore) (problem : Problem)
    (max_iter : Nat) (mi : ModelInformation) (ws : List String)
    (hfull : (boundIterTrace (ext.propagateBounds problem)
        (ext.tightenBounds problem) max_iter
        (ext.initBounds problem) none).2.length = max_iter)
    (hnoconv : (boundIterTrace (ext.propagateBounds problem)
        (ext.tightenBounds problem) max_iter
        (ext.initBounds problem) none).2.get? (max_iter - 1) ≠ some (0, 0))
    (hsum : summaryOfCtx problem
        (ext.propagateSpecialStructure problem
          (boundIterTrace (ext.propagateBounds problem)
            (ext.tightenBounds problem) max_iter
            (ext.initBounds problem) none).1)
        (ext.polynomialDegrees problem
          (boundIterTrace (ext.propagateBounds problem)
            (ext.tightenBounds problem) max_iter
            (ext.initBounds problem) none).1) = .ok (mi, ws)) :
    detect_special_structure ext problem max_iter = .ok (mi, ws) := by
  unfold detect_special_structure
  exact hsum

theorem non_convergence_is_not_an_error_witness :
    detect_special_structure
      ⟨fun _ => ⟨[], []⟩, fun _ cx _ => (cx, [0]), fun _ cx _ => (cx, [0]),
        fun _ _ => [], fun _ cx => cx⟩
      ⟨"p", [], [], []⟩ 3 = .ok (⟨"p", [], [], []⟩, []) :=
  non_convergence_is_not_an_error
    ⟨fun _ => ⟨[], []⟩, fun _ cx _ => (cx, [0]), fun _ cx _ => (cx, [0]),
      fun _ _ => [], fun _ cx => cx⟩
    ⟨"p", [], [], []⟩ 3 ⟨"p", [], [], []⟩ []
    (by decide) (by decide) rfl

/-- C10: in the summary assembly of `detect_special_structure`, an
objective missing from the bound context defaults to `Bound(None, None)`
(absent bounds) and processing continues; a variable missing from the
bound context, or an objective or constraint missing from the convexity or
degree context, raises a `KeyError`. -/
theorem summary_missing_context_entries (ctx : AnalysisCtx)
    (polynomial : List (Nat × PolynomialDegree))
    (vname : String) (v : PyVariable) (vrest : List (String × PyVariable))
    (vacc : List (String × VarInfo))
    (oname : String) (o : PyObjective) (orest : List (String × PyObjective))
    (oacc : List (String × ObjInfo))
    (cname : String) (c : PyConstraint) (crest : List (String × PyConstraint))
    (cacc : List (String × ConsInfo)) (ws : List String)
    (cvx : Convexity) (pd : PolynomialDegree) :
    (dictGet ctx.bound v.oid = none →
      buildVariables ctx ((vname, v) :: vrest) vacc ws =
        .error ("KeyError: bound of variable " ++ vname)) ∧
    (dictGet ctx.bound o.oid = none →
      dictGet ctx.convexity o.oid = some cvx →
      dictGet polynomial o.oid = some pd →
      buildObjectives ctx polynomial ((oname, o) :: orest) oacc ws =
        buildObjectives ctx polynomial orest
          (dictSet oacc o.name
            ⟨if o.minimizing then "min" else "max", cvx, pd, none, none⟩)
          (if dictContains oacc oname
            then ws ++ ["Duplicate objective " ++ oname] else ws)) ∧
    (dictGet ctx.convexity o.oid = none →
      buildObjectives ctx polynomial ((oname, o) :: orest) oacc ws =
        .error ("KeyError: convexity of objective " ++ oname)) ∧
    (dictGet ctx.convexity o.oid = some cvx →
      dictGet polynomial o.oid = none →
      buildObjectives ctx polynomial ((oname, o) :: orest) oacc ws =
        .error ("KeyError: degree of objective " ++ oname)) ∧
    (dictGet ctx.convexity c.oid = none →
      buildConstraints ctx polynomial ((cname, c) :: crest) cacc ws =
        .error ("KeyError: convexity of constraint " ++ cname)) ∧
    (dictGet ctx.convexity c.oid = some cvx →
      dictGet polynomial c.oid = none →
      buildConstraints ctx polynomial ((cname, c) :: crest) cacc ws =
        .error ("KeyError: degree of constraint " ++ cname)) := by
  refine ⟨fun h1 => ?_, fun h1 h2 h3 => ?_, fun h1 => ?_, fun h1 h2 => ?_,
    fun h1 => ?_, fun h1 h2 => ?_⟩
  · simp only [buildVariables, h1]
  · simp only [buildObjectives, h1, h2, h3, Option.getD_none]
  · simp only [buildObjectives, h1]
  · simp only [buildObjectives, h1, h2]
  · simp only [buildConstraints, h1]
  · simp only [buildConstraints, h1, h2]

theorem summary_missing_context_entries_witness :
    buildVariables ⟨[], []⟩ [("x", ⟨1, "x", .continuous⟩)] [] [] =
      .error ("KeyError: bound of variable " ++ "x") ∧
    buildObjectives ⟨[], [(2, Convexity.linear)]⟩ [(2, some 1)]
      [("o", ⟨2, "o", true⟩)] [] [] =
      buildObjectives ⟨[], [(2, Convexity.linear)]⟩ [(2, some 1)] []
        (dictSet [] "o" ⟨"min", Convexity.linear, some 1, none, none⟩) [] ∧
    buildObjectives ⟨[], []⟩ [] [("o", ⟨2, "o", true⟩)] [] [] =
      .error ("KeyError: convexity of objective " ++ "o") ∧
    buildObjectives ⟨[], [(2, Convexity.linear)]⟩ []
      [("o", ⟨2, "o", true⟩)] [] [] =
      .error ("KeyError: degree of objective " ++ "o") ∧
    buildConstraints ⟨[], []⟩ [] [("c", ⟨4, "c", true⟩)] [] [] =
      .error ("KeyError: convexity of constraint " ++ "c") ∧
    buildConstraints ⟨[], [(4, Convexity.linear)]⟩ [] [("c", ⟨4, "c", true⟩)] [] [] =
      .error ("KeyError: degree of constraint " ++ "c") := by
  refine ⟨?_, ?_, ?_, ?_, ?_, ?_⟩
  · exact (summary_missing_context_entries ⟨[], []⟩ [] "x" ⟨1, "x", .continuous⟩
      [] [] "o" ⟨2, "o", true⟩ [] [] "c" ⟨4, "c", true⟩ [] [] []
      Convexity.linear (some 1)).1 rfl
  · have h := (summary_missing_context_entries ⟨[], [(2, Convexity.linear)]⟩
      [(2, some 1)] "x" ⟨1, "x", .continuous⟩ [] [] "o" ⟨2, "o", true⟩ [] []
      "c" ⟨4, "c", true⟩ [] [] [] Convexity.linear (some 1)).2.1 rfl rfl rfl
    simpa using h
  · exact (summary_missing_context_entries ⟨[], []⟩ [] "x" ⟨1, "x", .continuous⟩
      [] [] "o" ⟨2, "o", true⟩ [] [] "c" ⟨4, "c", true⟩ [] [] []
      Convexity.linear (some 1)).2.2.1 rfl
  · exact (summary_missing_context_entries ⟨[], [(2, Convexity.linear)]⟩ []
      "x" ⟨1, "x", .continuous⟩ [] [] "o" ⟨2, "o", true⟩ [] []
      "c" ⟨4, "c", true⟩ [] [] [] Convexity.linear (some 1)).2.2.2.1 rfl rfl
  · exact (summary_missing_context_entries ⟨[], []⟩ [] "x" ⟨1, "x", .continuous⟩
      [] [] "o" ⟨2, "o", true⟩ [] [] "c" ⟨4, "c", true⟩ [] [] []
      Convexity.linear (some 1)).2.2.2.2.1 rfl
  · exact (summary_missing_context_entries ⟨[], [(4, Convexity.linear)]⟩ []
      "x" ⟨1, "x", .continuous⟩ [] [] "o" ⟨2, "o", true⟩ [] []
      "c" ⟨4, "c", true⟩ [] [] [] Convexity.linear (some 1)).2.2.2.2.2 rfl rfl

/-- The classification the `objtype` method actually implements, stated
directly by cases: `linear` exactly when the convexity is linear and the
degree is exactly 1 (an assertion failure when the convexity is linear but
the degree is not 1); otherwise `quadratic` exactly on degree 2; otherwise
`nonlinear` exactly on a non-polynomial degree; and `polynomial` on every
other finite degree — including degrees 0 and 1. -/
def objtypeAmended (v : ObjInfo) : Except String String :=
  if v.convexity = .linear then
    if v.polynomial_degree = some 1 then .ok "linear"
    else .error "AssertionError: deg.is_linear()"
  else if v.polynomial_degree = some 2 then .ok "quadratic"
  else if v.polynomial_degree = none then .ok "nonlinear"
  else .ok "polynomial"

/-- The classification asserted by the claim, verbatim: `linear` if the
convexity is linear and the degree is exactly 1; `quadratic` if the degree
is 2; `polynomial` if the degree is finite and greater than 2; `nonlinear`
otherwise. -/
def objtypeClaim (v : ObjInfo) : String :=
  if v.convexity = .linear ∧ v.polynomial_degree = some 1 then "linear"
  else if v.polynomial_degree = some 2 then "quadratic"
  else if (v.polynomial_degree.map (fun d => decide (2 < d))).getD false then
    "polynomial"
  else "nonlinear"

/-- C3 counterexample: an objective whose convexity is `unknown` and whose
polynomial degree is 1 reaches the summary; `objtype()` classifies it
`polynomial` (the source falls through `is_quadratic` to `is_polynomial`,
which accepts every finite degree), while the claim's classification
demands `nonlinear` for a finite degree that is not greater than 2. -/
theorem objtype_claim_cex :
    detect_special_structure
      ⟨fun _ => ⟨[], []⟩, fun _ cx _ => (cx, []), fun _ cx _ => (cx, []),
        fun _ _ => [(2, some 1)],
        fun _ cx => ⟨cx.bound, [(2, Convexity.unknown)]⟩⟩
      ⟨"q", [], [("o", ⟨2, "o", true⟩)], []⟩ 10 =
      .ok (⟨"q", [], [("o", ⟨"min", Convexity.unknown, some 1, none, none⟩)], []⟩,
        []) ∧
    ModelInformation.objtype
      ⟨"q", [], [("o", ⟨"min", Convexity.unknown, some 1, none, none⟩)], []⟩ =
      .ok [("o", "polynomial")] ∧
    objtypeClaim ⟨"min", Convexity.unknown, some 1, none, none⟩ = "nonlinear" :=
  ⟨rfl, rfl, rfl⟩

/-- C3 amended: `objtype` classifies each objective entry as `linear` iff
its convexity is linear and its degree is exactly 1 (with an assertion
failure when the convexity is linear and the degree is not 1), else
`quadratic` iff its degree is 2, else `nonlinear` iff its degree is
non-polynomial, and `polynomial` for every other finite degree — not only
degrees greater than 2; the name-to-type map applies this classification
entry by entry. -/
theorem objtype_characterisation :
    (∀ v : ObjInfo, objtypeEntry v = objtypeAmended v) ∧
    (∀ (k : String) (v : ObjInfo) (rest : List (String × ObjInfo))
        (acc : List (String × String)) (t : String),
      objtypeEntry v = .ok t →
      objtypeAux ((k, v) :: rest) acc = objtypeAux rest (dictSet acc k t)) := by
  constructor
  · intro v
    obtain ⟨s, cvx, pd, lb, ub⟩ := v
    unfold objtypeEntry objtypeAmended
    cases cvx <;> rcases pd with _ | n <;>
      simp only [Convexity.is_linear, PolynomialDegree.is_linear,
        PolynomialDegree.is_quadratic, PolynomialDegree.is_polynomial]
    · simp
    · by_cases hn : n = 1 <;> simp [hn]
    · simp
    · by_cases hn : n = 2 <;> simp [hn]
    · simp
    · by_cases hn : n = 2 <;> simp [hn]
    · simp
    · by_cases hn : n = 2 <;> simp [hn]
  · intro k v rest acc t h
    simp only [objtypeAux, h]

theorem objtype_characterisation_witness :
    objtypeEntry ⟨"min", Convexity.unknown, some 0, none, none⟩ =
      objtypeAmended ⟨"min", Convexity.unknown, some 0, none, none⟩ ∧
    objtypeAux [("a", ⟨"min", Convexity.convex, some 2, none, none⟩)] [] =
      objtypeAux [] (dictSet [] "a" "quadratic") :=
  ⟨objtype_characterisation.1 ⟨"min", Convexity.unknown, some 0, none, none⟩,
    objtype_characterisation.2 "a" ⟨"min", Convexity.convex, some 2, none, none⟩
      [] [] "quadratic" rfl⟩

/-- C2 counterexample: a problem whose two objectives share the node name
`o` (under distinct registry keys `o1`, `o2`) and whose constraint
registry reuses the variable name `x`.  `detect_special_structure` issues
no warning at all, and the surviving summary entry under `o` is the one of
the *second* objective (sense `max`, whereas the first is `min`): later
occurrences silently overwrite earlier ones, and cross-category duplicates
go undetected — refuting both the warning and the first-occurrence-wins
parts of the claim. -/
theorem duplicate_name_handling_cex :
    detect_special_structure
      ⟨fun _ => ⟨[(1, ⟨some 0, some 1⟩)], []⟩,
        fun _ cx _ => (cx, []), fun _ cx _ => (cx, []),
        fun _ _ => [(2, some 1), (3, some 1), (4, some 1)],
        fun _ cx => ⟨cx.bound,
          [(2, Convexity.linear), (3, Convexity.linear), (4, Convexity.linear)]⟩⟩
      ⟨"prob", [("x", ⟨1, "x", .continuous⟩)],
        [("o1", ⟨2, "o", true⟩), ("o2", ⟨3, "o", false⟩)],
        [("x", ⟨4, "x", true⟩)]⟩ 10 =
      .ok (⟨"prob",
        [("x", ⟨"x", "continuous", some 0, some 1⟩)],
        [("o", ⟨"max", Convexity.linear, some 1, none, none⟩)],
        [("x", ⟨"equality", Convexity.linear, some 1⟩)]⟩, []) :=
  rfl

/-- C2 amended: duplicate detection is per category and keyed
inconsistently.  Two objectives sharing a node name (under distinct
registry keys) produce no warning, and the later entry silently overwrites
the earlier in the summary — the last occurrence wins.  For variables the
warning compares the node name against earlier registry keys: when it does
fire, nothing is dropped — the entry is still stored under its own
registry key, and both entries survive.  Cross-category duplicates are
never compared at all. -/
theorem duplicate_name_actual_behaviour (ctx : AnalysisCtx)
    (polynomial : List (Nat × PolynomialDegree))
    (k1 k2 : String) (o1 o2 : PyObjective) (v1 v2 : PyVariable)
    (b1 b2 : Bound) (cvx1 cvx2 : Convexity) (pd1 pd2 : PolynomialDegree)
    (ws : List String)
    (hname : o1.name = o2.name) (hk2 : k2 ≠ o1.name)
    (hob1 : dictGet ctx.bound o1.oid = none)
    (hob2 : dictGet ctx.bound o2.oid = none)
    (hc1 : dictGet ctx.convexity o1.oid = some cvx1)
    (hp1 : dictGet polynomial o1.oid = some pd1)
    (hc2 : dictGet ctx.convexity o2.oid = some cvx2)
    (hp2 : dictGet polynomial o2.oid = some pd2)
    (hvb1 : dictGet ctx.bound v1.oid = some b1)
    (hvb2 : dictGet ctx.bound v2.oid = some b2)
    (hvdup : v2.name = k1) (hkk : k2 ≠ k1) :
    buildObjectives ctx polynomial [(k1, o1), (k2, o2)] [] ws =
      .ok ([(o2.name,
        ⟨if o2.minimizing then "min" else "max", cvx2, pd2, none, none⟩)], ws) ∧
    buildVariables ctx [(k1, v1), (k2, v2)] [] ws =
      .ok ([(k1, ⟨k1, variableTypeString v1.domain, b1.lower_bound, b1.upper_bound⟩),
        (k2, ⟨k2, variableTypeString v2.domain, b2.lower_bound, b2.upper_bound⟩)],
        ws ++ ["Duplicate variable " ++ v2.name]) := by
  constructor
  · have hne : o1.name ≠ k2 := fun h => hk2 h.symm
    have hne2 : o2.name ≠ k2 := hname ▸ hne
    simp only [buildObjectives, dictContains, dictGet, Option.isSome_none,
      Bool.false_eq_true, if_false, hob1, hob2, hc1, hp1, hc2, hp2,
      Option.getD_none, dictSet, hne, hne2, hname, if_pos, if_true]
  · have hne : k1 ≠ k2 := fun h => hkk h.symm
    simp only [buildVariables, dictContains, dictGet, Option.isSome_none,
      Bool.false_eq_true, if_false, hvb1, hvb2, dictSet, hvdup, hne,
      Option.isSome_some, if_true]

theorem duplicate_name_actual_behaviour_witness :
    buildObjectives ⟨[(11, ⟨some 0, some 1⟩), (12, ⟨some 2, some 3⟩)],
        [(2, Convexity.linear), (3, Convexity.convex)]⟩
      [(2, some 1), (3, some 2)]
      [("a", ⟨2, "o", true⟩), ("b", ⟨3, "o", false⟩)] [] [] =
      .ok ([("o", ⟨"max", Convexity.convex, some 2, none, none⟩)], []) ∧
    buildVariables ⟨[(11, ⟨some 0, some 1⟩), (12, ⟨some 2, some 3⟩)],
        [(2, Convexity.linear), (3, Convexity.convex)]⟩
      [("a", ⟨11, "x", .continuous⟩), ("b", ⟨12, "a", .binary⟩)] [] [] =
      .ok ([("a", ⟨"a", "continuous", some 0, some 1⟩),
        ("b", ⟨"b", "binary", some 2, some 3⟩)],
        ["Duplicate variable " ++ "a"]) :=
  duplicate_name_actual_behaviour
    ⟨[(11, ⟨some 0, some 1⟩), (12, ⟨some 2, some 3⟩)],
      [(2, Convexity.linear), (3, Convexity.convex)]⟩
    [(2, some 1), (3, some 2)] "a" "b" ⟨2, "o", true⟩ ⟨3, "o", false⟩
    ⟨11, "x", .continuous⟩ ⟨12, "a", .binary⟩
    ⟨some 0, some 1⟩ ⟨some 2, some 3⟩ Convexity.linear Convexity.convex
    (some 1) (some 2) []
    rfl (by decide) rfl rfl rfl rfl rfl rfl rfl rfl rfl (by decide)

end Suspect
